import Mathlib

/-!
Verification of the Felicity event-registration and inventory engine.

The definitions below are a shallow embedding of the registration,
payment-disposition, payment-proof and check-in route handlers of the
backend (src/backend/src/routes/normalRegistration.js,
merchandiseRegistration.js, registrationRoutes.js), of the shared helpers
(eventHelpers.js) and of the Event / Registration schemas
(models/Event.js and the Registration schema with its unique indices on
ticketId and on the pair (eventId, userId)).

Modelling conventions:
- MongoDB documents become structures; Number fields become Int so that
  unguarded `inc` updates can drive a counter negative exactly as in the
  database.
- Each route handler becomes a pure function from a `State` (the event
  document plus the registration collection) to a pair of the post state
  and an `Except ApiError Registration`.  The handler always returns the
  post state, so a failure that forgets to roll a counter back is
  observable.
- The random ticket id, the generated registration id and the current
  time are parameters of the operations (the code draws them from
  crypto.randomBytes, the database and `new Date()`).
- `QRCode.toDataURL` is modelled by the deterministic injective encoding
  `qrEncode`; auth middleware, mailing and organizer-ownership lookups
  are external collaborators and are not modelled.
- `Registration.create` fails exactly when one of the two unique indices
  of the registration schema is violated: the compound (eventId, userId)
  index or the ticketId index; this is the duplicate-key (code 11000)
  error the handlers test for.
-/

namespace Felicity

/-- Event type discriminator (`eventType` field of the Event schema). -/
inductive EventType
  | normal
  | merchandise
deriving DecidableEq, Repr

/-- Eligibility rule of an event (`eligibility` field). -/
inductive Eligibility
  | iiit
  | nonIiit
  | all
deriving DecidableEq, Repr

/-- Participant type of a user (`participantType` field of the User schema). -/
inductive PType
  | iiit
  | nonIiit
  | other
deriving DecidableEq, Repr

/-- Payment state of a registration (`paymentStatus` field). -/
inductive PayStatus
  | notRequired
  | pending
  | approved
  | rejected
deriving DecidableEq, Repr

/-- Stored lifecycle status of an event (`status` field). -/
inductive EventStatus
  | draft
  | published
  | ongoing
  | completed
deriving DecidableEq, Repr

/-- A submitted form value: `undef` covers both undefined and null,
`vstr` a string value, `varr` an array value of the given length (only
emptiness of the array is ever inspected by the code). -/
inductive FormValue
  | undef
  | vstr (s : String)
  | varr (n : Nat)
deriving DecidableEq, Repr

/-- One custom form field of a normal event (formFieldSchema). -/
structure FormField where
  fid : Nat
  label : String
  required : Bool
deriving DecidableEq, Repr

/-- One merchandise option, i.e. a variant (merchOptionSchema). -/
structure MerchOption where
  oid : Nat
  label : String
  price : Int
  stock : Int
deriving DecidableEq, Repr

/-- One merchandise item with its option list (merchandiseItemSchema). -/
structure MerchItem where
  mid : Nat
  itemName : String
  required : Bool
  options : List MerchOption
deriving DecidableEq, Repr

/-- The Event document fields used by the registration engine. -/
structure Event where
  eid : Nat
  eventType : EventType
  eligibility : Eligibility
  registrationDeadline : Option Int
  startDate : Int
  endDate : Int
  status : EventStatus
  registrationOpen : Bool
  registrationLimit : Int
  registrationFee : Int
  registrationCount : Int
  customForm : List FormField
  merchandiseItems : List MerchItem
deriving DecidableEq, Repr

/-- One processed merchandise selection as stored on a registration
(the value of `processedSelections[itemId]` in the merchandise route). -/
structure Selection where
  itemId : Nat
  itemName : String
  optionId : Nat
  optionLabel : String
  price : Int
deriving DecidableEq, Repr

/-- The Registration document (registration schema). -/
structure Registration where
  regId : Nat
  eventId : Nat
  userId : Nat
  ticketId : String
  qrCode : String
  paymentStatus : PayStatus
  paymentProof : String
  formResponses : List (Nat × FormValue)
  merchandiseSelections : List Selection
  amountPaid : Int
  attended : Bool
  attendedAt : Option Int
deriving DecidableEq, Repr

/-- The authenticated participant identity used by the handlers. -/
structure User where
  uid : Nat
  ptype : PType
deriving DecidableEq, Repr

/-- The durable state the engine mutates: one event document and the
registration collection. -/
structure State where
  event : Event
  regs : List Registration
deriving DecidableEq, Repr

/-- The caller-visible error outcomes of the handlers, one constructor
per distinct error response of the routes. -/
inductive ApiError
  | registrationClosed
  | wrongEventType
  | ineligible (msg : String)
  | deadlinePassed
  | alreadyRegistered
  | eventFull
  | missingRequiredField (label : String)
  | requiredItemSoldOut (item : String)
  | requiredItemNotSelected (item : String)
  | invalidOption (item : String)
  | outOfStock (item : String) (opt : String)
  | proofRequired
  | notRegistered
  | cannotUploadProof
  | registrationNotFound
  | alreadyApproved
  | alreadyRejected
  | notOngoing
  | ticketRequired
  | invalidTicket
  | paymentNotApproved
  | alreadyCheckedIn
deriving DecidableEq, Repr

/-- Deterministic model of `QRCode.toDataURL`: a scannable encoding of
the ticket code. -/
def qrEncode (t : String) : String := "QR:" ++ t

/-- checkEligibility from eventHelpers.js: returns an error for an
IIIT-only event and a non-IIIT participant and vice versa. -/
def checkEligibility (e : Event) (u : User) : Option ApiError :=
  if e.eligibility = Eligibility.iiit ∧ u.ptype ≠ PType.iiit then
    some (ApiError.ineligible "This event is for IIIT participants only")
  else if e.eligibility = Eligibility.nonIiit ∧ u.ptype ≠ PType.nonIiit then
    some (ApiError.ineligible "This event is for Non-IIIT participants only")
  else none

/-- computeStatus from eventHelpers.js, with `now` passed explicitly. -/
def computeStatus (e : Event) (now : Int) : EventStatus :=
  if e.status = EventStatus.draft then e.status
  else if e.startDate ≤ now ∧ now ≤ e.endDate then EventStatus.ongoing
  else if e.endDate < now then EventStatus.completed
  else e.status

/-- The deadline test `registrationDeadline && new Date() > deadline`. -/
def deadlineOver (e : Event) (now : Int) : Bool :=
  match e.registrationDeadline with
  | some d => decide (d < now)
  | none => false

/-- Lookup of a submitted form value by field id. -/
def lookupForm (resp : List (Nat × FormValue)) (fid : Nat) : Option FormValue :=
  (resp.find? fun p => decide (p.1 = fid)).map (·.2)

/-- The emptiness test of the required-field check: undefined, null, the
empty string and an empty array all count as missing. -/
def valueMissing : Option FormValue → Bool
  | none => true
  | some FormValue.undef => true
  | some (FormValue.vstr s) => decide (s = "")
  | some (FormValue.varr n) => decide (n = 0)

/-- The required-field loop of the normal route: the label of the first
required field whose submitted value is missing, if any. -/
def firstMissingRequired : List FormField → List (Nat × FormValue) → Option String
  | [], _ => none
  | f :: rest, resp =>
    if f.required ∧ valueMissing (lookupForm resp f.fid) then some f.label
    else firstMissingRequired rest resp

/-- Does the collection hold a registration for the (eventId, userId)
pair (the `findOne` duplicate pre-check)? -/
def hasPair (regs : List Registration) (eid uid : Nat) : Bool :=
  regs.any fun r => decide (r.eventId = eid ∧ r.userId = uid)

/-- findOne by (eventId, userId). -/
def findPair (regs : List Registration) (eid uid : Nat) : Option Registration :=
  regs.find? fun r => decide (r.eventId = eid ∧ r.userId = uid)

/-- Would inserting a registration with this pair and ticket code
violate one of the two unique indices of the registration schema?  This
is the duplicate-key error (code 11000) of `Registration.create`. -/
def dupKey (regs : List Registration) (eid uid : Nat) (tid : String) : Bool :=
  regs.any fun r => decide ((r.eventId = eid ∧ r.userId = uid) ∨ r.ticketId = tid)

/-- Mongoose `save` of a modified registration document: replace the
document with the given id. -/
def updateReg (regs : List Registration) (rid : Nat) (r : Registration) : List Registration :=
  regs.map fun x => if x.regId = rid then r else x

/-- Add `d` to the stock of an option when its id matches. -/
def bumpOption (oid : Nat) (d : Int) (o : MerchOption) : MerchOption :=
  if o.oid = oid then { o with stock := o.stock + d } else o

/-- Apply `bumpOption` inside an item when its id matches. -/
def bumpItem (mid oid : Nat) (d : Int) (it : MerchItem) : MerchItem :=
  if it.mid = mid then { it with options := it.options.map (bumpOption oid d) } else it

/-- A stock update `inc merchandiseItems.$[item].options.$[opt].stock`
keyed by item and option id.  The source issues this through Mongo
positional or arrayFilters operators (and, on payment rejection, through
a JS find-and-mutate); all of these coincide with this map because the
subdocument ids generated by Mongoose are unique within an event. -/
def adjustStock (e : Event) (mid oid : Nat) (d : Int) : Event :=
  { e with merchandiseItems := e.merchandiseItems.map (bumpItem mid oid d) }

/-- The filter of the atomic stock decrement in the merchandise route:
`merchandiseItems._id = mid`, `merchandiseItems.options._id = oid`,
`merchandiseItems.options.stock > 0`.  Per MongoDB semantics each dotted
condition on an array is satisfied by *some* array element
independently (the query does not use `elemMatch`), which this
definition reproduces faithfully. -/
def stockGuard (e : Event) (mid oid : Nat) : Bool :=
  (e.merchandiseItems.any fun it => decide (it.mid = mid)) &&
  (e.merchandiseItems.any fun it => it.options.any fun o => decide (o.oid = oid)) &&
  (e.merchandiseItems.any fun it => it.options.any fun o => decide (0 < o.stock))

/-- The rollback loops of the merchandise route: one compensating
`inc ... stock : 1` per previously decremented (itemId, optionId) pair,
in the order they were recorded. -/
def rollbackStock (e : Event) (decs : List (Nat × Nat)) : Event :=
  decs.foldl (fun acc d => adjustStock acc d.1 d.2 1) e

/-- Outcome type of every handler: the post state together with the
created or updated registration, or the error response. -/
abbrev HandlerResult := State × Except ApiError Registration

/-- POST /normal/:id/register (normalRegistration.js).  Parameters
`now`, `newRegId` and `ticketId` model the clock, the database-assigned
document id and the crypto-random ticket code.  The handler mirrors the
route step by step; in particular the required-field check runs after
the atomic capacity reservation and returns without decrementing the
reserved slot, exactly as the source does. -/
def registerNormal (s : State) (u : User) (now : Int)
    (resp : List (Nat × FormValue)) (newRegId : Nat) (ticketId : String) :
    HandlerResult :=
  let e := s.event
  if !e.registrationOpen then (s, .error .registrationClosed)
  else if e.eventType ≠ EventType.normal then (s, .error .wrongEventType)
  else
    match checkEligibility e u with
    | some err => (s, .error err)
    | none =>
      if deadlineOver e now then (s, .error .deadlinePassed)
      else if hasPair s.regs e.eid u.uid then (s, .error .alreadyRegistered)
      else if e.registrationCount < e.registrationLimit then
        let e1 := { e with registrationCount := e.registrationCount + 1 }
        match firstMissingRequired e.customForm resp with
        | some lbl => ({ s with event := e1 }, .error (.missingRequiredField lbl))
        | none =>
          let qr := if e.registrationFee = 0 then qrEncode ticketId else ""
          let pay := if 0 < e.registrationFee then PayStatus.pending else PayStatus.notRequired
          let r : Registration :=
            { regId := newRegId, eventId := e.eid, userId := u.uid,
              ticketId := ticketId, qrCode := qr, paymentStatus := pay,
              paymentProof := "", formResponses := resp,
              merchandiseSelections := [], amountPaid := e.registrationFee,
              attended := false, attendedAt := none }
          if dupKey s.regs e.eid u.uid ticketId then
            ({ s with event := { e1 with registrationCount := e1.registrationCount - 1 } },
             .error .alreadyRegistered)
          else ({ s with event := e1, regs := s.regs ++ [r] }, .ok r)
      else (s, .error .eventFull)

/-- The selection loop of the merchandise route (step 8).  The item list
iterated is the one of the originally fetched event; the threaded `ev`
is the live database state the atomic decrements run against.  On
failure the loop returns the error together with the event state after
its stock rollback (the capacity rollback is applied by the caller). -/
def merchLoop (sels : List (Nat × Nat)) :
    List MerchItem → Event → List (Nat × Nat) → List Selection → Int →
    Except (ApiError × Event) (Event × List (Nat × Nat) × List Selection × Int)
  | [], ev, decs, proc, total => .ok (ev, decs, proc, total)
  | it :: rest, ev, decs, proc, total =>
    match (sels.find? fun p => decide (p.1 = it.mid)).map (·.2) with
    | none =>
      if it.required then .error (.requiredItemNotSelected it.itemName, rollbackStock ev decs)
      else merchLoop sels rest ev decs proc total
    | some optId =>
      match it.options.find? fun o => decide (o.oid = optId) with
      | none => .error (.invalidOption it.itemName, rollbackStock ev decs)
      | some opt =>
        if stockGuard ev it.mid opt.oid then
          merchLoop sels rest (adjustStock ev it.mid opt.oid (-1))
            (decs ++ [(it.mid, opt.oid)])
            (proc ++ [{ itemId := it.mid, itemName := it.itemName,
                        optionId := opt.oid, optionLabel := opt.label,
                        price := opt.price }])
            (total + opt.price)
        else .error (.outOfStock it.itemName opt.label, rollbackStock ev decs)

/-- POST /merch/:id/register (merchandiseRegistration.js).  The
`sels` argument is the request body `merchandiseSelections`, a mapping
from item id to selected option id. -/
def registerMerch (s : State) (u : User) (now : Int)
    (sels : List (Nat × Nat)) (newRegId : Nat) (ticketId : String) :
    HandlerResult :=
  let e := s.event
  if !e.registrationOpen then (s, .error .registrationClosed)
  else if e.eventType ≠ EventType.merchandise then (s, .error .wrongEventType)
  else
    match checkEligibility e u with
    | some err => (s, .error err)
    | none =>
      if deadlineOver e now then (s, .error .deadlinePassed)
      else if hasPair s.regs e.eid u.uid then (s, .error .alreadyRegistered)
      else
        match e.merchandiseItems.find? fun it =>
            it.required && !(it.options.any fun o => decide (0 < o.stock)) with
        | some it => (s, .error (.requiredItemSoldOut it.itemName))
        | none =>
          if e.registrationCount < e.registrationLimit then
            let e1 := { e with registrationCount := e.registrationCount + 1 }
            match merchLoop sels e.merchandiseItems e1 [] [] 0 with
            | .error (err, ev1) =>
              ({ s with event := { ev1 with registrationCount := ev1.registrationCount - 1 } },
               .error err)
            | .ok (ev2, decs, proc, total) =>
              let amount := e.registrationFee + total
              let pay := if 0 < amount then PayStatus.pending else PayStatus.notRequired
              let qr := if 0 < amount then "" else qrEncode ticketId
              let r : Registration :=
                { regId := newRegId, eventId := e.eid, userId := u.uid,
                  ticketId := ticketId, qrCode := qr, paymentStatus := pay,
                  paymentProof := "", formResponses := [],
                  merchandiseSelections := proc, amountPaid := amount,
                  attended := false, attendedAt := none }
              if dupKey s.regs e.eid u.uid ticketId then
                ({ s with event :=
                     rollbackStock { ev2 with registrationCount := ev2.registrationCount - 1 } decs },
                 .error .alreadyRegistered)
              else ({ s with event := ev2, regs := s.regs ++ [r] }, .ok r)
          else (s, .error .eventFull)

/-- PATCH /:id/payment-proof (normalRegistration.js): upload or replace
the payment proof; a previously rejected payment returns to pending. -/
def uploadPaymentProof (s : State) (uid : Nat) (proof : String) : HandlerResult :=
  if proof = "" then (s, .error .proofRequired)
  else
    match findPair s.regs s.event.eid uid with
    | none => (s, .error .notRegistered)
    | some r =>
      if r.paymentStatus ≠ PayStatus.pending ∧ r.paymentStatus ≠ PayStatus.rejected then
        (s, .error .cannotUploadProof)
      else
        let r1 := { r with
          paymentProof := proof,
          paymentStatus :=
            if r.paymentStatus = PayStatus.rejected then PayStatus.pending
            else r.paymentStatus }
        ({ s with regs := updateReg s.regs r.regId r1 }, .ok r1)

/-- The stock-restore loop of the reject branch: for one stored
selection, find the item and option on the current event and increment
the stock of that option by one; selections whose item or option no
longer exists are skipped. -/
def restoreOne (e : Event) (sel : Selection) : Event :=
  match e.merchandiseItems.find? fun it => decide (it.mid = sel.itemId) with
  | none => e
  | some it =>
    if it.options.any fun o => decide (o.oid = sel.optionId) then
      adjustStock e sel.itemId sel.optionId 1
    else e

/-- Restore every selection of a rejected registration, in stored order. -/
def restoreSelections (e : Event) (sels : List Selection) : Event :=
  sels.foldl restoreOne e

/-- The two payment dispositions of PATCH
/:eventId/registrations/:regId/payment. -/
inductive PayAction
  | approve
  | reject
deriving DecidableEq, Repr

/-- PATCH /:eventId/registrations/:regId/payment (registrationRoutes.js).
Approve: refuse when already approved, set approved, generate the QR
code when absent; inventory untouched.  Reject: refuse when already
rejected, set rejected, clear the QR code, decrement the
registrationCount unconditionally, and for a merchandise event restore
the stock of every stored selection. -/
def disposePayment (s : State) (rid : Nat) (act : PayAction) : HandlerResult :=
  match s.regs.find? fun x => decide (x.regId = rid) with
  | none => (s, .error .registrationNotFound)
  | some r =>
    match act with
    | PayAction.approve =>
      if r.paymentStatus = PayStatus.approved then (s, .error .alreadyApproved)
      else
        let r1 := { r with
          paymentStatus := PayStatus.approved,
          qrCode := if r.qrCode = "" then qrEncode r.ticketId else r.qrCode }
        ({ s with regs := updateReg s.regs rid r1 }, .ok r1)
    | PayAction.reject =>
      if r.paymentStatus = PayStatus.rejected then (s, .error .alreadyRejected)
      else
        let r1 := { r with paymentStatus := PayStatus.rejected, qrCode := "" }
        let e1 := { s.event with registrationCount := s.event.registrationCount - 1 }
        let e2 :=
          if s.event.eventType = EventType.merchandise then
            restoreSelections e1 r.merchandiseSelections
          else e1
        ({ s with event := e2, regs := updateReg s.regs rid r1 }, .ok r1)

/-- POST /:id/scan (registrationRoutes.js): check a participant in by
ticket code, guarded by the computed ongoing status of the event. -/
def scanTicket (s : State) (tid : String) (now : Int) : HandlerResult :=
  if computeStatus s.event now ≠ EventStatus.ongoing then (s, .error .notOngoing)
  else if tid = "" then (s, .error .ticketRequired)
  else
    match s.regs.find? fun r => decide (r.eventId = s.event.eid ∧ r.ticketId = tid) with
    | none => (s, .error .invalidTicket)
    | some r =>
      if r.paymentStatus = PayStatus.pending ∨ r.paymentStatus = PayStatus.rejected then
        (s, .error .paymentNotApproved)
      else if r.attended then (s, .error .alreadyCheckedIn)
      else
        let r1 := { r with attended := true, attendedAt := some now }
        ({ s with regs := updateReg s.regs r.regId r1 }, .ok r1)

/-! ## Observation functions on the inventory state -/

/-- Sum of the stock of the options with the given id in one item. -/
def itemSum : List MerchOption → Nat → Int
  | [], _ => 0
  | o :: os, oid => (if o.oid = oid then o.stock else 0) + itemSum os oid

/-- Sum of the stock recorded for the (item id, option id) pair over an
item list; with unique subdocument ids this is the stock of that
variant. -/
def stockSum : List MerchItem → Nat → Nat → Int
  | [], _, _ => 0
  | it :: its, mid, oid =>
    (if it.mid = mid then itemSum it.options oid else 0) + stockSum its mid oid

/-- Number of options with the given id in one item (as an Int). -/
def optCount : List MerchOption → Nat → Int
  | [], _ => 0
  | o :: os, oid => (if o.oid = oid then 1 else 0) + optCount os oid

/-- Number of (item, option) positions matching the pair of ids. -/
def pairCount : List MerchItem → Nat → Nat → Int
  | [], _, _ => 0
  | it :: its, mid, oid =>
    (if it.mid = mid then optCount it.options oid else 0) + pairCount its mid oid

/-- Stock of a variant of the event of a state. -/
def stockOf (s : State) (mid oid : Nat) : Int :=
  stockSum s.event.merchandiseItems mid oid

/-- Does this registration hold a committed claim on the variant?  A
claim is held while the stored selection exists and the payment has not
been rejected (rejection is the release path of the engine). -/
def holdsClaim (r : Registration) (mid oid : Nat) : Bool :=
  decide (r.paymentStatus ≠ PayStatus.rejected) &&
  (r.merchandiseSelections.any fun sel => decide (sel.itemId = mid ∧ sel.optionId = oid))

/-- Number of registrations of the state holding a committed claim on
the variant. -/
def claimCount (s : State) (mid oid : Nat) : Nat :=
  (s.regs.filter fun r => holdsClaim r mid oid).length

/-- Well-formed event: the Mongoose-generated subdocument ids are unique
(item ids across the event, option ids within each item). -/
def eventWf (e : Event) : Prop :=
  (e.merchandiseItems.map (·.mid)).Nodup ∧
  ∀ it ∈ e.merchandiseItems, (it.options.map (·.oid)).Nodup

/-- A stored selection is valid for an event when exactly one (item,
option) position carries its pair of ids. -/
def selValid (e : Event) (sel : Selection) : Prop :=
  pairCount e.merchandiseItems sel.itemId sel.optionId = 1

/-! ## Concrete fixtures

A participant, a normal event with one required form field, and a
merchandise event with one required item holding a single variant of
stock 1 and price 100. -/

/-- A participant of type IIIT with user id 7. -/
def userA : User := { uid := 7, ptype := PType.iiit }

/-- Normal event, open, fee 0, limit 10, one required field "Name". -/
def eventN : Event :=
  { eid := 1, eventType := EventType.normal, eligibility := Eligibility.all,
    registrationDeadline := none, startDate := 0, endDate := 100,
    status := EventStatus.published, registrationOpen := true,
    registrationLimit := 10, registrationFee := 0, registrationCount := 0,
    customForm := [{ fid := 1, label := "Name", required := true }],
    merchandiseItems := [] }

/-- State holding `eventN` and an empty registration collection. -/
def stateN : State := { event := eventN, regs := [] }

/-- Merchandise event, open, fee 0, limit 10, one required item "Shirt"
with a single variant "M" of price 100 and stock 1. -/
def eventM : Event :=
  { eid := 1, eventType := EventType.merchandise, eligibility := Eligibility.all,
    registrationDeadline := none, startDate := 0, endDate := 100,
    status := EventStatus.published, registrationOpen := true,
    registrationLimit := 10, registrationFee := 0, registrationCount := 0,
    customForm := [],
    merchandiseItems :=
      [{ mid := 1, itemName := "Shirt", required := true,
         options := [{ oid := 1, label := "M", price := 100, stock := 1 }] }] }

/-- State holding `eventM` and an empty registration collection. -/
def stateM0 : State := { event := eventM, regs := [] }

/-- After registering userA with the single variant selected: stock 0,
registrationCount 1, payment pending (amount due 100). -/
def stateM1 : State := (registerMerch stateM0 userA 5 [(1, 1)] 100 "FEL-a").1

/-- After the organizer rejects the payment: stock restored to 1,
registrationCount back to 0, payment rejected. -/
def stateM2 : State := (disposePayment stateM1 100 PayAction.reject).1

/-- After the participant re-uploads a payment proof: payment pending
again, inventory untouched. -/
def stateM3 : State := (uploadPaymentProof stateM2 7 "proof.png").1

/-- After the organizer rejects the payment a second time: the stock and
capacity of the same registration are released again. -/
def stateM4 : State := (disposePayment stateM3 100 PayAction.reject).1

/-- Did a handler call succeed? -/
def resOk (h : HandlerResult) : Bool :=
  match h.2 with
  | Except.ok _ => true
  | Except.error _ => false

/-! ## Claims -/

/-- C1: the claim demands that every register failure occurring after
the capacity slot was reserved restores every touched counter before
returning, including a missing required form field.  The normal route
violates this: on `stateN` (count 0, one required field) a registration
with an empty response set fails with the missing-field error, yet the
post state keeps the reserved slot, `registrationCount = 1`.  This
demonstrates the code bug at the failing input. -/
theorem registerNormal_missing_field_leaks_capacity :
    (registerNormal stateN userA 5 [] 100 "FEL-a").2
      = Except.error (ApiError.missingRequiredField "Name") ∧
    stateN.event.registrationCount = 0 ∧
    (registerNormal stateN userA 5 [] 100 "FEL-a").1.event.registrationCount = 1 := by
  refine ⟨rfl, rfl, rfl⟩

/-- C2: the claim asserts the conservation law: committed claims on a
variant plus its current stock always equal the initial stock S.  The
code violates it: with S = 1, after register (claims 1 + stock 0 = 1)
and a payment rejection (claims 0 + stock 1 = 1), a payment-proof
re-upload turns the same registration back to pending without
re-reserving (claims 1 + stock 1 = 2), and a second rejection restores
the same unit again (claims 0 + stock 2 = 2).  Every step below is a
successful call of the engine. -/
theorem conservation_violated_by_reject_reupload_reject :
    stockOf stateM0 1 1 = 1 ∧
    (claimCount stateM0 1 1 : Int) + stockOf stateM0 1 1 = 1 ∧
    resOk (registerMerch stateM0 userA 5 [(1, 1)] 100 "FEL-a") = true ∧
    (claimCount stateM1 1 1 : Int) + stockOf stateM1 1 1 = 1 ∧
    resOk (disposePayment stateM1 100 PayAction.reject) = true ∧
    (claimCount stateM2 1 1 : Int) + stockOf stateM2 1 1 = 1 ∧
    resOk (uploadPaymentProof stateM2 7 "proof.png") = true ∧
    (claimCount stateM3 1 1 : Int) + stockOf stateM3 1 1 = 2 ∧
    resOk (disposePayment stateM3 100 PayAction.reject) = true ∧
    (claimCount stateM4 1 1 : Int) + stockOf stateM4 1 1 = 2 := by
  decide

/-- C3: the claim asserts that every operation preserves
`0 ≤ registrationCount ≤ registrationLimit`.  The reject branch
decrements the counter without a guard, and the payment-proof re-upload
re-arms a rejected registration for a second rejection, so the same
sequence as in the conservation violation drives the counter of the
event to -1. -/
theorem registrationCount_driven_negative :
    stateM0.event.registrationCount = 0 ∧
    resOk (registerMerch stateM0 userA 5 [(1, 1)] 100 "FEL-a") = true ∧
    stateM1.event.registrationCount = 1 ∧
    resOk (disposePayment stateM1 100 PayAction.reject) = true ∧
    resOk (uploadPaymentProof stateM2 7 "proof.png") = true ∧
    resOk (disposePayment stateM3 100 PayAction.reject) = true ∧
    stateM4.event.registrationCount = -1 := by
  decide

/-! ## Stock-arithmetic lemmas -/

theorem bumpOption_oid (oid : Nat) (d : Int) (o : MerchOption) :
    (bumpOption oid d o).oid = o.oid := by
  unfold bumpOption; split <;> rfl

theorem bumpItem_mid (mid oid : Nat) (d : Int) (it : MerchItem) :
    (bumpItem mid oid d it).mid = it.mid := by
  unfold bumpItem; split <;> rfl

theorem bumpItem_option_oids (mid oid : Nat) (d : Int) (it : MerchItem) :
    (bumpItem mid oid d it).options.map (·.oid) = it.options.map (·.oid) := by
  unfold bumpItem; split
  · simp only [List.map_map]
    exact List.map_congr_left fun o _ => bumpOption_oid oid d o
  · rfl

theorem bumpOption_stock (oid : Nat) (d : Int) (o : MerchOption) :
    (bumpOption oid d o).stock = o.stock + (if o.oid = oid then d else 0) := by
  unfold bumpOption; split <;> simp [*]

theorem itemSum_map_bump (os : List MerchOption) (oid tid : Nat) (d : Int) :
    itemSum (os.map (bumpOption oid d)) tid =
      itemSum os tid + (if tid = oid then d * optCount os oid else 0) := by
  induction os with
  | nil => simp [itemSum, optCount]
  | cons o os ih =>
    simp only [List.map_cons, itemSum, optCount, ih, bumpOption_oid, bumpOption_stock]
    by_cases h1 : o.oid = oid <;> by_cases h2 : tid = oid <;>
      by_cases h3 : o.oid = tid <;>
      simp only [h1, h2, h3, if_true, if_false, ite_true, ite_false] <;>
      first
        | ring1
        | omega

theorem optCount_map_bump (os : List MerchOption) (oid tid : Nat) (d : Int) :
    optCount (os.map (bumpOption oid d)) tid = optCount os tid := by
  induction os with
  | nil => rfl
  | cons o os ih =>
    simp only [List.map_cons, optCount, ih, bumpOption_oid]

theorem bumpItem_itemSum (mid oid tod : Nat) (d : Int) (it : MerchItem) :
    itemSum (bumpItem mid oid d it).options tod =
      itemSum it.options tod +
        (if it.mid = mid ∧ tod = oid then d * optCount it.options oid else 0) := by
  unfold bumpItem
  by_cases h1 : it.mid = mid <;> by_cases h3 : tod = oid <;>
    simp only [h1, h3, if_true, if_false, ite_true, ite_false, true_and, false_and,
      and_true, and_false, itemSum_map_bump] <;> omega

theorem stockSum_map_bump (its : List MerchItem) (mid oid tid tod : Nat) (d : Int) :
    stockSum (its.map (bumpItem mid oid d)) tid tod =
      stockSum its tid tod +
        (if tid = mid ∧ tod = oid then d * pairCount its mid oid else 0) := by
  induction its with
  | nil => simp [stockSum, pairCount]
  | cons it its ih =>
    simp only [List.map_cons, stockSum, pairCount, ih, bumpItem_mid, bumpItem_itemSum]
    by_cases h1 : it.mid = mid <;> by_cases h2 : tid = mid <;>
      by_cases h3 : tod = oid <;> by_cases h4 : it.mid = tid <;>
      simp only [h1, h2, h3, h4, if_true, if_false, ite_true, ite_false, true_and,
        false_and, and_true, and_false] <;>
      first
        | ring1
        | omega

theorem pairCount_map_bump (its : List MerchItem) (mid oid tid tod : Nat) (d : Int) :
    pairCount (its.map (bumpItem mid oid d)) tid tod = pairCount its tid tod := by
  induction its with
  | nil => rfl
  | cons it its ih =>
    simp only [List.map_cons, pairCount, ih, bumpItem_mid]
    by_cases h1 : it.mid = tid <;> simp [h1, bumpItem]
    split <;> simp [optCount_map_bump]

theorem adjustStock_items (e : Event) (mid oid : Nat) (d : Int) :
    (adjustStock e mid oid d).merchandiseItems =
      e.merchandiseItems.map (bumpItem mid oid d) := rfl

theorem adjustStock_stockSum (e : Event) (mid oid tid tod : Nat) (d : Int) :
    stockSum (adjustStock e mid oid d).merchandiseItems tid tod =
      stockSum e.merchandiseItems tid tod +
        (if tid = mid ∧ tod = oid then d * pairCount e.merchandiseItems mid oid else 0) :=
  stockSum_map_bump e.merchandiseItems mid oid tid tod d

theorem adjustStock_pairCount (e : Event) (mid oid tid tod : Nat) (d : Int) :
    pairCount (adjustStock e mid oid d).merchandiseItems tid tod =
      pairCount e.merchandiseItems tid tod :=
  pairCount_map_bump e.merchandiseItems mid oid tid tod d

theorem adjustStock_wf (e : Event) (mid oid : Nat) (d : Int) (h : eventWf e) :
    eventWf (adjustStock e mid oid d) := by
  obtain ⟨h1, h2⟩ := h
  constructor
  · have : (adjustStock e mid oid d).merchandiseItems.map (·.mid) =
        e.merchandiseItems.map (·.mid) := by
      simp only [adjustStock_items, List.map_map]
      exact List.map_congr_left fun it _ => bumpItem_mid mid oid d it
    rw [this]; exact h1
  · intro it hit
    simp only [adjustStock_items, List.mem_map] at hit
    obtain ⟨it0, hit0, rfl⟩ := hit
    rw [bumpItem_option_oids]
    exact h2 it0 hit0

theorem optCount_nonneg (os : List MerchOption) (oid : Nat) : 0 ≤ optCount os oid := by
  induction os with
  | nil => simp [optCount]
  | cons o os ih => simp only [optCount]; split_ifs <;> omega

theorem optCount_ne_zero_any (os : List MerchOption) (oid : Nat)
    (h : optCount os oid ≠ 0) :
    (os.any fun o => decide (o.oid = oid)) = true := by
  induction os with
  | nil => simp [optCount] at h
  | cons o os ih =>
    simp only [List.any_cons, Bool.or_eq_true, decide_eq_true_eq]
    by_cases h1 : o.oid = oid
    · exact Or.inl h1
    · refine Or.inr (ih ?_)
      simpa [optCount, h1] using h

theorem pairCount_zero_of_not_mem (its : List MerchItem) (mid oid : Nat)
    (h : ∀ it ∈ its, it.mid ≠ mid) : pairCount its mid oid = 0 := by
  induction its with
  | nil => rfl
  | cons it its ih =>
    simp only [pairCount]
    rw [if_neg (h it (List.mem_cons_self it its))]
    rw [ih fun x hx => h x (List.mem_cons_of_mem it hx)]
    omega

theorem pairCount_of_find_some (its : List MerchItem) (mid oid : Nat) (it : MerchItem)
    (hnd : (its.map (·.mid)).Nodup)
    (hf : (its.find? fun x => decide (x.mid = mid)) = some it) :
    pairCount its mid oid = optCount it.options oid := by
  induction its with
  | nil => cases hf
  | cons hd tl ih =>
    rw [List.map_cons, List.nodup_cons] at hnd
    by_cases h1 : hd.mid = mid
    · rw [List.find?_cons_of_pos _ (by simpa using h1)] at hf
      injection hf with h
      subst h
      simp only [pairCount, if_pos h1]
      have hz : pairCount tl mid oid = 0 := by
        refine pairCount_zero_of_not_mem tl mid oid fun x hx hxm => ?_
        exact hnd.1 (by rw [h1, ← hxm]; exact List.mem_map_of_mem (·.mid) hx)
      omega
    · rw [List.find?_cons_of_neg _ (by simpa using h1)] at hf
      simp only [pairCount, if_neg h1]
      rw [ih hnd.2 hf]
      omega

theorem restoreOne_eq_adjust (e : Event) (sel : Selection) (hwf : eventWf e)
    (hv : selValid e sel) :
    restoreOne e sel = adjustStock e sel.itemId sel.optionId 1 := by
  unfold selValid at hv
  unfold restoreOne
  split
  next hf =>
    exfalso
    have h0 : pairCount e.merchandiseItems sel.itemId sel.optionId = 0 := by
      refine pairCount_zero_of_not_mem _ _ _ fun x hx => ?_
      have := List.find?_eq_none.mp hf x hx
      simpa using this
    omega
  next it hf =>
    have hopt := pairCount_of_find_some e.merchandiseItems sel.itemId sel.optionId it hwf.1 hf
    have hany : (it.options.any fun o => decide (o.oid = sel.optionId)) = true :=
      optCount_ne_zero_any it.options sel.optionId (by omega)
    rw [if_pos hany]

theorem restoreOne_registrationCount (e : Event) (sel : Selection) :
    (restoreOne e sel).registrationCount = e.registrationCount := by
  unfold restoreOne
  split
  · rfl
  · split <;> rfl

theorem restoreSelections_registrationCount (sels : List Selection) (e : Event) :
    (restoreSelections e sels).registrationCount = e.registrationCount := by
  induction sels generalizing e with
  | nil => rfl
  | cons sel rest ih =>
    show (restoreSelections (restoreOne e sel) rest).registrationCount = _
    rw [ih, restoreOne_registrationCount]

theorem restoreSelections_stockSum (sels : List Selection) (e : Event)
    (hwf : eventWf e)
    (hv : ∀ sel ∈ sels, selValid e sel)
    (hnd : (sels.map (·.itemId)).Nodup) (tid tod : Nat) :
    stockSum (restoreSelections e sels).merchandiseItems tid tod =
      stockSum e.merchandiseItems tid tod +
        (if sels.any fun sel => decide (sel.itemId = tid ∧ sel.optionId = tod)
         then 1 else 0) := by
  induction sels generalizing e with
  | nil => simp [restoreSelections]
  | cons sel rest ih =>
    rw [List.map_cons, List.nodup_cons] at hnd
    have hsel := hv sel (List.mem_cons_self sel rest)
    have step : restoreSelections e (sel :: rest) =
        restoreSelections (adjustStock e sel.itemId sel.optionId 1) rest := by
      show restoreSelections (restoreOne e sel) rest = _
      rw [restoreOne_eq_adjust e sel hwf hsel]
    rw [step]
    rw [ih (adjustStock e sel.itemId sel.optionId 1)
      (adjustStock_wf e sel.itemId sel.optionId 1 hwf)
      (fun x hx => by
        unfold selValid
        rw [adjustStock_pairCount]
        exact hv x (List.mem_cons_of_mem sel hx))
      hnd.2]
    rw [adjustStock_stockSum]
    unfold selValid at hsel
    rw [hsel]
    simp only [List.any_cons, Bool.or_eq_true, decide_eq_true_eq]
    by_cases h1 : sel.itemId = tid <;> by_cases h2 : sel.optionId = tod
    · have hrest : (rest.any fun x => decide (x.itemId = tid ∧ x.optionId = tod)) = false := by
        rw [List.any_eq_false]
        intro x hx hxd
        rw [decide_eq_true_eq] at hxd
        refine hnd.1 ?_
        rw [h1, ← hxd.1]
        exact List.mem_map_of_mem (·.itemId) hx
      rw [hrest]
      rw [if_pos (show tid = sel.itemId ∧ tod = sel.optionId from ⟨h1.symm, h2.symm⟩)]
      rw [if_neg (show ¬false = true by simp)]
      rw [if_pos (show (sel.itemId = tid ∧ sel.optionId = tod) ∨ false = true from
        Or.inl ⟨h1, h2⟩)]
      omega
    · rw [if_neg (fun hc => h2 hc.2.symm)]
      rw [if_congr (show ((sel.itemId = tid ∧ sel.optionId = tod) ∨
          (rest.any fun x => decide (x.itemId = tid ∧ x.optionId = tod)) = true) ↔
          ((rest.any fun x => decide (x.itemId = tid ∧ x.optionId = tod)) = true) by
        constructor
        · rintro (⟨ha, hb⟩ | hr)
          · exact absurd hb h2
          · exact hr
        · exact Or.inr) rfl rfl]
      ring1
    · rw [if_neg (fun hc => h1 hc.1.symm)]
      rw [if_congr (show ((sel.itemId = tid ∧ sel.optionId = tod) ∨
          (rest.any fun x => decide (x.itemId = tid ∧ x.optionId = tod)) = true) ↔
          ((rest.any fun x => decide (x.itemId = tid ∧ x.optionId = tod)) = true) by
        constructor
        · rintro (⟨ha, hb⟩ | hr)
          · exact absurd ha h1
          · exact hr
        · exact Or.inr) rfl rfl]
      ring1
    · rw [if_neg (fun hc => h1 hc.1.symm)]
      rw [if_congr (show ((sel.itemId = tid ∧ sel.optionId = tod) ∨
          (rest.any fun x => decide (x.itemId = tid ∧ x.optionId = tod)) = true) ↔
          ((rest.any fun x => decide (x.itemId = tid ∧ x.optionId = tod)) = true) by
        constructor
        · rintro (⟨ha, hb⟩ | hr)
          · exact absurd ha h1
          · exact hr
        · exact Or.inr) rfl rfl]
      ring1

/-- C5: Reject disposition.  When the registration is already rejected
the call fails with AlreadyRejected and changes nothing.  Otherwise it
sets the payment state to rejected, clears the ticket artifact,
decrements the registrationCount of the event exactly once, and (for a
merchandise event with unique subdocument ids, stored selections that
reference existing variants, and one selection per item, which is how
the register route creates them) increments by one the stock of exactly
the selected variants, leaving every other variant unchanged; for a
non-merchandise event the event document changes only in its
registrationCount. -/
theorem reject_disposition_spec (s : State) (rid : Nat) (r : Registration)
    (hfind : (s.regs.find? fun x => decide (x.regId = rid)) = some r) :
    (r.paymentStatus = PayStatus.rejected →
      disposePayment s rid PayAction.reject = (s, Except.error ApiError.alreadyRejected)) ∧
    (r.paymentStatus ≠ PayStatus.rejected →
      (disposePayment s rid PayAction.reject).2 =
        Except.ok { r with paymentStatus := PayStatus.rejected, qrCode := "" } ∧
      (disposePayment s rid PayAction.reject).1.regs =
        updateReg s.regs rid { r with paymentStatus := PayStatus.rejected, qrCode := "" } ∧
      (disposePayment s rid PayAction.reject).1.event.registrationCount =
        s.event.registrationCount - 1 ∧
      (s.event.eventType = EventType.merchandise →
       eventWf s.event →
       (∀ sel ∈ r.merchandiseSelections, selValid s.event sel) →
       (r.merchandiseSelections.map (·.itemId)).Nodup →
       ∀ mid oid,
        stockSum (disposePayment s rid PayAction.reject).1.event.merchandiseItems mid oid =
          stockSum s.event.merchandiseItems mid oid +
            (if r.merchandiseSelections.any fun sel =>
                decide (sel.itemId = mid ∧ sel.optionId = oid) then 1 else 0)) ∧
      (s.event.eventType ≠ EventType.merchandise →
        (disposePayment s rid PayAction.reject).1.event =
          { s.event with registrationCount := s.event.registrationCount - 1 })) := by
  constructor
  · intro hrej
    simp only [disposePayment, hfind, if_pos hrej]
  · intro hne
    simp only [disposePayment, hfind, if_neg hne]
    refine ⟨trivial, trivial, ?_, ?_, ?_⟩
    · show (if s.event.eventType = EventType.merchandise then
          restoreSelections
            { s.event with registrationCount := s.event.registrationCount - 1 }
            r.merchandiseSelections
        else
          { s.event with
            registrationCount := s.event.registrationCount - 1 }).registrationCount = _
      split
      · rw [restoreSelections_registrationCount]
      · rfl
    · intro hm hwf hv hnd mid oid
      show stockSum (if s.event.eventType = EventType.merchandise then
          restoreSelections
            { s.event with registrationCount := s.event.registrationCount - 1 }
            r.merchandiseSelections
        else
          { s.event with
            registrationCount := s.event.registrationCount - 1 }).merchandiseItems mid oid = _
      rw [if_pos hm]
      exact restoreSelections_stockSum r.merchandiseSelections
        { s.event with registrationCount := s.event.registrationCount - 1 }
        hwf hv hnd mid oid
    · intro hnm
      show (if s.event.eventType = EventType.merchandise then
          restoreSelections
            { s.event with registrationCount := s.event.registrationCount - 1 }
            r.merchandiseSelections
        else
          { s.event with
            registrationCount := s.event.registrationCount - 1 }) = _
      rw [if_neg hnm]

/-- The pending registration document created by the register call that
produced `stateM1`. -/
def regM1 : Registration :=
  { regId := 100, eventId := 1, userId := 7, ticketId := "FEL-a", qrCode := "",
    paymentStatus := PayStatus.pending, paymentProof := "",
    formResponses := [],
    merchandiseSelections :=
      [{ itemId := 1, itemName := "Shirt", optionId := 1, optionLabel := "M",
         price := 100 }],
    amountPaid := 100, attended := false, attendedAt := none }

/-- Witness for the reject disposition: rejecting the pending
registration of `stateM1` succeeds, decrements the counter, and puts the
selected unit back in stock. -/
theorem reject_disposition_spec_witness :
    (disposePayment stateM1 100 PayAction.reject).2 =
      Except.ok { regM1 with paymentStatus := PayStatus.rejected, qrCode := "" } ∧
    (disposePayment stateM1 100 PayAction.reject).1.event.registrationCount =
      stateM1.event.registrationCount - 1 ∧
    stockSum (disposePayment stateM1 100 PayAction.reject).1.event.merchandiseItems 1 1 =
      stockSum stateM1.event.merchandiseItems 1 1 + 1 := by
  have h := (reject_disposition_spec stateM1 100 regM1 (by decide)).2 (by decide)
  refine ⟨h.1, h.2.2.1, ?_⟩
  have hs := h.2.2.2.1 (by decide) (by unfold eventWf; decide)
    (by unfold selValid; decide) (by decide) 1 1
  rw [hs, if_pos (by decide)]

/-- C10: Approve disposition on a rejected registration.  The call
succeeds: it sets the payment state to approved and regenerates the
ticket artifact (every rejected registration has an empty artifact,
since rejection clears it); the event document, hence the
registrationCount and every variant stock, is untouched. -/
theorem approve_after_rejection (s : State) (rid : Nat) (r : Registration)
    (hfind : (s.regs.find? fun x => decide (x.regId = rid)) = some r)
    (hrej : r.paymentStatus = PayStatus.rejected)
    (hqr : r.qrCode = "") :
    (disposePayment s rid PayAction.approve).1.event = s.event ∧
    (disposePayment s rid PayAction.approve).2 =
      Except.ok { r with paymentStatus := PayStatus.approved,
                         qrCode := qrEncode r.ticketId } ∧
    (disposePayment s rid PayAction.approve).1.regs =
      updateReg s.regs rid { r with paymentStatus := PayStatus.approved,
                                    qrCode := qrEncode r.ticketId } := by
  have hne : ¬r.paymentStatus = PayStatus.approved := by rw [hrej]; decide
  simp only [disposePayment, hfind, if_neg hne, if_pos hqr]
  exact ⟨trivial, trivial, trivial⟩

/-- The rejected registration document of `stateM2`. -/
def regM2 : Registration := { regM1 with paymentStatus := PayStatus.rejected }

/-- Witness for approval after rejection on the concrete `stateM2`. -/
theorem approve_after_rejection_witness :
    (disposePayment stateM2 100 PayAction.approve).1.event = stateM2.event ∧
    (disposePayment stateM2 100 PayAction.approve).2 =
      Except.ok { regM2 with paymentStatus := PayStatus.approved,
                             qrCode := qrEncode regM2.ticketId } ∧
    (disposePayment stateM2 100 PayAction.approve).1.regs =
      updateReg stateM2.regs 100 { regM2 with paymentStatus := PayStatus.approved,
                                              qrCode := qrEncode regM2.ticketId } :=
  approve_after_rejection stateM2 100 regM2 (by decide) (by decide) (by decide)

/-- C7: payment-proof re-upload on a rejected registration.  The same
registration document (same id, same ticket code) returns to pending
with the new proof stored; the event document — its registrationCount
and every variant stock — is not mutated. -/
theorem uploadProof_after_rejection (s : State) (uid : Nat) (proof : String)
    (r : Registration)
    (hfind : findPair s.regs s.event.eid uid = some r)
    (hrej : r.paymentStatus = PayStatus.rejected)
    (hp : proof ≠ "") :
    (uploadPaymentProof s uid proof).1.event = s.event ∧
    (uploadPaymentProof s uid proof).2 =
      Except.ok { r with paymentProof := proof, paymentStatus := PayStatus.pending } ∧
    (uploadPaymentProof s uid proof).1.regs =
      updateReg s.regs r.regId
        { r with paymentProof := proof, paymentStatus := PayStatus.pending } := by
  have hcan : ¬(r.paymentStatus ≠ PayStatus.pending ∧ r.paymentStatus ≠ PayStatus.rejected) :=
    fun hc => hc.2 hrej
  simp only [uploadPaymentProof, hfind, if_neg hp, if_neg hcan, if_pos hrej]
  exact ⟨trivial, trivial, trivial⟩

/-- Witness for the payment-proof re-upload on the concrete `stateM2`. -/
theorem uploadProof_after_rejection_witness :
    (uploadPaymentProof stateM2 7 "u2.png").1.event = stateM2.event ∧
    (uploadPaymentProof stateM2 7 "u2.png").2 =
      Except.ok { regM2 with paymentProof := "u2.png",
                             paymentStatus := PayStatus.pending } ∧
    (uploadPaymentProof stateM2 7 "u2.png").1.regs =
      updateReg stateM2.regs regM2.regId
        { regM2 with paymentProof := "u2.png", paymentStatus := PayStatus.pending } :=
  uploadProof_after_rejection stateM2 7 "u2.png" regM2 (by decide) (by decide) (by decide)

/-- C8 counterexample: the scan route refuses to look a ticket up at all
while the computed status of the event is not ongoing.  On `stateN` at
time 200 (past the end date, so the computed status is completed) no
registration matches the code FEL-z, yet the call fails with the
not-ongoing error instead of InvalidTicket, refuting the claim as
stated. -/
theorem scan_requires_ongoing_counterexample :
    (stateN.regs.find? fun r => decide (r.eventId = stateN.event.eid ∧ r.ticketId = "FEL-z"))
      = none ∧
    computeStatus stateN.event 200 = EventStatus.completed ∧
    scanTicket stateN "FEL-z" 200 = (stateN, Except.error ApiError.notOngoing) ∧
    ApiError.notOngoing ≠ ApiError.invalidTicket := by
  refine ⟨rfl, rfl, rfl, by decide⟩

/-- C8, amended: provided the computed status of the event is ongoing
and the submitted ticket code is non-empty (an empty code is rejected as
missing before lookup), the scan check-in fails with InvalidTicket when
no registration of the event matches the code, with PaymentNotApproved
when the matching registration is pending or rejected, with
AlreadyCheckedIn when it is already attended, and otherwise marks it
attended at the current time. -/
theorem scan_checkin_spec (s : State) (tid : String) (now : Int)
    (hon : computeStatus s.event now = EventStatus.ongoing)
    (ht : tid ≠ "") :
    ((s.regs.find? fun r => decide (r.eventId = s.event.eid ∧ r.ticketId = tid)) = none →
      scanTicket s tid now = (s, Except.error ApiError.invalidTicket)) ∧
    (∀ r, (s.regs.find? fun x => decide (x.eventId = s.event.eid ∧ x.ticketId = tid))
        = some r →
      ((r.paymentStatus = PayStatus.pending ∨ r.paymentStatus = PayStatus.rejected) →
        scanTicket s tid now = (s, Except.error ApiError.paymentNotApproved)) ∧
      (¬(r.paymentStatus = PayStatus.pending ∨ r.paymentStatus = PayStatus.rejected) →
        r.attended = true →
        scanTicket s tid now = (s, Except.error ApiError.alreadyCheckedIn)) ∧
      (¬(r.paymentStatus = PayStatus.pending ∨ r.paymentStatus = PayStatus.rejected) →
        r.attended = false →
        scanTicket s tid now =
          ({ s with regs := (updateReg s.regs r.regId
              { r with attended := true, attendedAt := some now }) },
           Except.ok { r with attended := true, attendedAt := some now }))) := by
  have hnon : ¬computeStatus s.event now ≠ EventStatus.ongoing := fun hc => hc hon
  constructor
  · intro hfind
    simp only [scanTicket, if_neg hnon, if_neg ht, hfind]
  · intro r hfind
    refine ⟨?_, ?_, ?_⟩
    · intro hpay
      simp only [scanTicket, if_neg hnon, if_neg ht, hfind, if_pos hpay]
    · intro hpay hatt
      simp only [scanTicket, if_neg hnon, if_neg ht, hfind, if_neg hpay, hatt, if_true]
    · intro hpay hatt
      simp only [scanTicket, if_neg hnon, if_neg ht, hfind, if_neg hpay, hatt]
      simp

/-- An approved, not yet attended registration used by the check-in
witness. -/
def regS : Registration :=
  { regId := 100, eventId := 1, userId := 7, ticketId := "FEL-a",
    qrCode := qrEncode "FEL-a", paymentStatus := PayStatus.approved,
    paymentProof := "p.png", formResponses := [], merchandiseSelections := [],
    amountPaid := 0, attended := false, attendedAt := none }

/-- State with the published event `eventN` (ongoing at time 50) and the
approved registration `regS`. -/
def stateS : State := { event := eventN, regs := [regS] }

/-- Witness for the amended check-in contract: scanning the valid
approved ticket of `stateS` at time 50 marks it attended. -/
theorem scan_checkin_spec_witness :
    scanTicket stateS "FEL-a" 50 =
      ({ stateS with regs := (updateReg stateS.regs regS.regId
          { regS with attended := true, attendedAt := some 50 }) },
       Except.ok { regS with attended := true, attendedAt := some 50 }) :=
  (((scan_checkin_spec stateS "FEL-a" 50 (by decide) (by decide)).2
    regS (by decide)).2.2) (by decide) (by decide)

/-- State for the duplicate-registration counterexample: the pair
(event 1, user 7) is already registered, but the organizer has since
closed registrations. -/
def stateDup : State :=
  { event := { eventN with registrationOpen := false }, regs := [regS] }

/-- C4 counterexample: with a registration already present for the pair
but the event closed, a further register call fails with the
registration-closed error, not AlreadyRegistered, refuting the "always
fails with AlreadyRegistered" reading of the claim (counters are still
unchanged). -/
theorem register_duplicate_closed_counterexample :
    hasPair stateDup.regs stateDup.event.eid userA.uid = true ∧
    registerNormal stateDup userA 5 [(1, FormValue.vstr "x")] 101 "FEL-b" =
      (stateDup, Except.error ApiError.registrationClosed) ∧
    ApiError.registrationClosed ≠ ApiError.alreadyRegistered := by
  refine ⟨by decide, rfl, by decide⟩

/-- C4, amended: for every (eventId, participantId) pair at most one
Registration ever exists — when a registration for the pair already
exists, a further register call (normal or merchandise) always fails and
returns the state completely unchanged (registrationCount and every
stock included, so no second Registration is ever created); the reported
error is AlreadyRegistered whenever the preliminary
open/type/eligibility/deadline checks pass, and otherwise the error of
the failed preliminary check. -/
theorem register_duplicate_spec (s : State) (u : User) (now : Int)
    (resp : List (Nat × FormValue)) (sels : List (Nat × Nat))
    (rid : Nat) (tid : String)
    (hdup : hasPair s.regs s.event.eid u.uid = true) :
    (∃ err, registerNormal s u now resp rid tid = (s, Except.error err)) ∧
    (∃ err, registerMerch s u now sels rid tid = (s, Except.error err)) ∧
    (s.event.registrationOpen = true →
     s.event.eventType = EventType.normal →
     checkEligibility s.event u = none →
     deadlineOver s.event now = false →
      registerNormal s u now resp rid tid = (s, Except.error ApiError.alreadyRegistered)) ∧
    (s.event.registrationOpen = true →
     s.event.eventType = EventType.merchandise →
     checkEligibility s.event u = none →
     deadlineOver s.event now = false →
      registerMerch s u now sels rid tid = (s, Except.error ApiError.alreadyRegistered)) := by
  refine ⟨?_, ?_, ?_, ?_⟩
  · cases h1 : s.event.registrationOpen with
    | false => exact ⟨ApiError.registrationClosed, by simp [registerNormal, h1]⟩
    | true =>
      by_cases h2 : s.event.eventType = EventType.normal
      · cases h3 : checkEligibility s.event u with
        | some err => exact ⟨err, by simp [registerNormal, h1, h2, h3]⟩
        | none =>
          cases h4 : deadlineOver s.event now with
          | true => exact ⟨ApiError.deadlinePassed, by simp [registerNormal, h1, h2, h3, h4]⟩
          | false =>
            exact ⟨ApiError.alreadyRegistered, by simp [registerNormal, h1, h2, h3, h4, hdup]⟩
      · exact ⟨ApiError.wrongEventType, by simp [registerNormal, h1, h2]⟩
  · cases h1 : s.event.registrationOpen with
    | false => exact ⟨ApiError.registrationClosed, by simp [registerMerch, h1]⟩
    | true =>
      by_cases h2 : s.event.eventType = EventType.merchandise
      · cases h3 : checkEligibility s.event u with
        | some err => exact ⟨err, by simp [registerMerch, h1, h2, h3]⟩
        | none =>
          cases h4 : deadlineOver s.event now with
          | true => exact ⟨ApiError.deadlinePassed, by simp [registerMerch, h1, h2, h3, h4]⟩
          | false =>
            exact ⟨ApiError.alreadyRegistered, by simp [registerMerch, h1, h2, h3, h4, hdup]⟩
      · exact ⟨ApiError.wrongEventType, by simp [registerMerch, h1, h2]⟩
  · intro h1 h2 h3 h4
    simp [registerNormal, h1, h2, h3, h4, hdup]
  · intro h1 h2 h3 h4
    simp [registerMerch, h1, h2, h3, h4, hdup]

/-- Witness for the amended duplicate-registration contract: a second
attempt for the already registered pair of `stateS` (open event, normal
type, eligible participant, no deadline) fails with AlreadyRegistered
and leaves the state untouched. -/
theorem register_duplicate_spec_witness :
    registerNormal stateS userA 5 [(1, FormValue.vstr "x")] 101 "FEL-b" =
      (stateS, Except.error ApiError.alreadyRegistered) :=
  (register_duplicate_spec stateS userA 5 [(1, FormValue.vstr "x")] [] 101 "FEL-b"
    (by decide)).2.2.1 (by decide) (by decide) (by decide) (by decide)

/-! ## Rollback exactness of the merchandise loop -/

theorem bumpOption_cancel (oid : Nat) (o : MerchOption) :
    bumpOption oid 1 (bumpOption oid (-1) o) = o := by
  cases o with
  | mk a b c d =>
    unfold bumpOption
    split_ifs <;> simp_all <;> omega

theorem bumpItem_cancel (mid oid : Nat) (it : MerchItem) :
    bumpItem mid oid 1 (bumpItem mid oid (-1) it) = it := by
  cases it with
  | mk a b c os =>
    by_cases h : a = mid <;> simp [bumpItem, h]
    calc os.map (bumpOption oid 1 ∘ bumpOption oid (-1))
        = os.map id := List.map_congr_left fun o _ => bumpOption_cancel oid o
      _ = os := List.map_id os

theorem adjustStock_cancel (e : Event) (mid oid : Nat) :
    adjustStock (adjustStock e mid oid (-1)) mid oid 1 = e := by
  cases e
  simp only [adjustStock, List.map_map]
  congr 1
  calc List.map (bumpItem mid oid 1 ∘ bumpItem mid oid (-1)) _
      = List.map id _ := List.map_congr_left fun it _ => bumpItem_cancel mid oid it
    _ = _ := List.map_id _

theorem bumpOption_comm (o1 : Nat) (d1 : Int) (o2 : Nat) (d2 : Int) (x : MerchOption) :
    bumpOption o1 d1 (bumpOption o2 d2 x) = bumpOption o2 d2 (bumpOption o1 d1 x) := by
  cases x with
  | mk a b c d =>
    unfold bumpOption
    split_ifs <;> simp_all <;> omega

theorem bumpItem_comm (m1 : Nat) (o1 : Nat) (d1 : Int) (m2 : Nat) (o2 : Nat) (d2 : Int)
    (it : MerchItem) :
    bumpItem m1 o1 d1 (bumpItem m2 o2 d2 it) = bumpItem m2 o2 d2 (bumpItem m1 o1 d1 it) := by
  cases it with
  | mk a b c os =>
    unfold bumpItem
    split_ifs <;> simp_all <;>
      exact fun o _ => bumpOption_comm o1 d1 o2 d2 o

theorem adjustStock_comm (e : Event) (m1 o1 : Nat) (d1 : Int) (m2 o2 : Nat) (d2 : Int) :
    adjustStock (adjustStock e m1 o1 d1) m2 o2 d2 =
      adjustStock (adjustStock e m2 o2 d2) m1 o1 d1 := by
  cases e
  simp only [adjustStock, List.map_map]
  congr 1
  exact List.map_congr_left fun it _ => bumpItem_comm m2 o2 d2 m1 o1 d1 it

theorem rollbackStock_adjust_comm (decs : List (Nat × Nat)) (e : Event)
    (m o : Nat) (d : Int) :
    rollbackStock (adjustStock e m o d) decs = adjustStock (rollbackStock e decs) m o d := by
  induction decs generalizing e with
  | nil => rfl
  | cons a decs ih =>
    show rollbackStock (adjustStock (adjustStock e m o d) a.1 a.2 1) decs = _
    rw [adjustStock_comm, ih]
    rfl

theorem rollbackStock_append (e : Event) (decs : List (Nat × Nat)) (d : Nat × Nat) :
    rollbackStock e (decs ++ [d]) = adjustStock (rollbackStock e decs) d.1 d.2 1 := by
  unfold rollbackStock
  rw [List.foldl_append]
  rfl

/-- The merchandise selection loop is exactly compensated by its
recorded rollback list: replaying one increment per recorded decrement
restores the event the loop started from. -/
theorem merchLoop_rollback (sels : List (Nat × Nat)) :
    ∀ (items : List MerchItem) (ev : Event) (decs : List (Nat × Nat))
      (proc : List Selection) (total : Int) ev2 decs2 proc2 total2,
      merchLoop sels items ev decs proc total = Except.ok (ev2, decs2, proc2, total2) →
      rollbackStock ev2 decs2 = rollbackStock ev decs := by
  intro items
  induction items with
  | nil =>
    intro ev decs proc total ev2 decs2 proc2 total2 h
    simp only [merchLoop] at h
    injection h with h
    injection h with h1 h
    injection h with h2 h
    subst h1; subst h2
    rfl
  | cons it rest ih =>
    intro ev decs proc total ev2 decs2 proc2 total2 h
    simp only [merchLoop] at h
    split at h
    · split at h
      · cases h
      · exact ih ev decs proc total ev2 decs2 proc2 total2 h
    · split at h
      · cases h
      · split at h
        · have := ih _ _ _ _ _ _ _ _ h
          rw [this, rollbackStock_append, rollbackStock_adjust_comm, adjustStock_cancel]
        · cases h

/-- The merchandise selection loop only ever touches variant stocks: the
registrationCount it returns is the one it was given. -/
theorem merchLoop_registrationCount (sels : List (Nat × Nat)) :
    ∀ (items : List MerchItem) (ev : Event) (decs : List (Nat × Nat))
      (proc : List Selection) (total : Int) ev2 decs2 proc2 total2,
      merchLoop sels items ev decs proc total = Except.ok (ev2, decs2, proc2, total2) →
      ev2.registrationCount = ev.registrationCount := by
  intro items
  induction items with
  | nil =>
    intro ev decs proc total ev2 decs2 proc2 total2 h
    simp only [merchLoop] at h
    injection h with h
    injection h with h1 h
    subst h1
    rfl
  | cons it rest ih =>
    intro ev decs proc total ev2 decs2 proc2 total2 h
    simp only [merchLoop] at h
    split at h
    · split at h
      · cases h
      · exact ih ev decs proc total ev2 decs2 proc2 total2 h
    · split at h
      · cases h
      · split at h
        · have := ih _ _ _ _ _ _ _ _ h
          exact this
        · cases h

theorem dupKey_of_ticket (regs : List Registration) (eid uid : Nat) (tid : String)
    (h : (regs.any fun r => decide (r.ticketId = tid)) = true) :
    dupKey regs eid uid tid = true := by
  unfold dupKey
  rw [List.any_eq_true] at h ⊢
  obtain ⟨r, hr, hd⟩ := h
  rw [decide_eq_true_eq] at hd
  exact ⟨r, hr, by rw [decide_eq_true_eq]; exact Or.inr hd⟩

theorem adjustStock_set_count (e : Event) (c : Int) (m o : Nat) (d : Int) :
    adjustStock { e with registrationCount := c } m o d =
      { adjustStock e m o d with registrationCount := c } := rfl

theorem rollbackStock_set_count (decs : List (Nat × Nat)) (e : Event) (c : Int) :
    rollbackStock { e with registrationCount := c } decs =
      { rollbackStock e decs with registrationCount := c } := by
  induction decs generalizing e with
  | nil => rfl
  | cons a decs ih =>
    show rollbackStock (adjustStock { e with registrationCount := c } a.1 a.2 1) decs = _
    rw [adjustStock_set_count, ih]
    rfl

/-- C9: when the ledger write fails with a duplicate-key error caused by
the unique ticketId index (the random code collides with some existing
registration) while the calling participant has no registration for the
event, both register routes first roll the reserved capacity slot, and
for the merchandise route every reserved stock unit, back to the exact
pre-call state, and then report AlreadyRegistered; the single ledger
write is never retried with a fresh code. -/
theorem ticket_collision_spec :
    (∀ (s : State) (u : User) (now : Int) (resp : List (Nat × FormValue))
       (rid : Nat) (tid : String),
      s.event.registrationOpen = true →
      s.event.eventType = EventType.normal →
      checkEligibility s.event u = none →
      deadlineOver s.event now = false →
      hasPair s.regs s.event.eid u.uid = false →
      s.event.registrationCount < s.event.registrationLimit →
      firstMissingRequired s.event.customForm resp = none →
      (s.regs.any fun r => decide (r.ticketId = tid)) = true →
      registerNormal s u now resp rid tid = (s, Except.error ApiError.alreadyRegistered)) ∧
    (∀ (s : State) (u : User) (now : Int) (sels : List (Nat × Nat))
       (rid : Nat) (tid : String) ev2 decs proc total,
      s.event.registrationOpen = true →
      s.event.eventType = EventType.merchandise →
      checkEligibility s.event u = none →
      deadlineOver s.event now = false →
      hasPair s.regs s.event.eid u.uid = false →
      (s.event.merchandiseItems.find? fun it =>
        it.required && !(it.options.any fun o => decide (0 < o.stock))) = none →
      s.event.registrationCount < s.event.registrationLimit →
      merchLoop sels s.event.merchandiseItems
        { s.event with registrationCount := s.event.registrationCount + 1 } [] [] 0 =
        Except.ok (ev2, decs, proc, total) →
      (s.regs.any fun r => decide (r.ticketId = tid)) = true →
      registerMerch s u now sels rid tid = (s, Except.error ApiError.alreadyRegistered)) := by
  constructor
  · intro s u now resp rid tid hopen htype helig hdl hnp hcap hform htick
    have hdk := dupKey_of_ticket s.regs s.event.eid u.uid tid htick
    obtain ⟨⟨eid, etype, elig, ddl, sd, ed, st, ropen, lim, fee, cnt, form, items⟩, regs⟩ := s
    dsimp only at hopen htype helig hdl hnp hcap hform htick hdk
    subst hopen
    subst htype
    have harith : cnt + 1 - 1 = cnt := by omega
    simp only [registerNormal, helig, hdl, hnp, hform, hdk, harith,
      Bool.not_true, Bool.false_eq_true, if_false, ite_true, ite_false, ne_eq,
      not_true_eq_false, if_pos hcap]
  · intro s u now sels rid tid ev2 decs proc total hopen htype helig hdl hnp hpre hcap
      hloop htick
    have hdk := dupKey_of_ticket s.regs s.event.eid u.uid tid htick
    have hroll := merchLoop_rollback sels _ _ _ _ _ _ _ _ _ hloop
    have hcnt := merchLoop_registrationCount sels _ _ _ _ _ _ _ _ _ hloop
    obtain ⟨⟨eid, etype, elig, ddl, sd, ed, st, ropen, lim, fee, cnt, form, items⟩, regs⟩ := s
    dsimp only at hopen htype helig hdl hnp hpre hcap hloop htick hdk hroll hcnt
    subst hopen
    subst htype
    simp only [registerMerch, helig, hdl, hnp, hpre, hdk, hloop,
      Bool.not_true, Bool.false_eq_true, if_false, ite_true, ite_false, ne_eq,
      not_true_eq_false, if_pos hcap]
    rw [show (ev2.registrationCount - 1 : Int) = cnt from by omega]
    rw [rollbackStock_set_count]
    rw [show rollbackStock ev2 decs =
        { eid := eid, eventType := EventType.merchandise, eligibility := elig,
          registrationDeadline := ddl, startDate := sd, endDate := ed, status := st,
          registrationOpen := true, registrationLimit := lim, registrationFee := fee,
          registrationCount := cnt + 1, customForm := form,
          merchandiseItems := items } from hroll]

/-- Registration of another participant (user 8) whose random ticket
code FEL-a will collide with the next ticket drawn. -/
def regOtherN : Registration :=
  { regId := 50, eventId := 1, userId := 8, ticketId := "FEL-a", qrCode := "",
    paymentStatus := PayStatus.notRequired, paymentProof := "",
    formResponses := [], merchandiseSelections := [], amountPaid := 0,
    attended := false, attendedAt := none }

/-- Normal event with the colliding registration of user 8. -/
def stateTickN : State := { event := eventN, regs := [regOtherN] }

/-- Merchandise event with the colliding registration of user 8. -/
def stateTickM : State := { event := eventM, regs := [regOtherN] }

/-- The single variant of the collision witness after its unit was
reserved. -/
def optW : MerchOption := { oid := 1, label := "M", price := 100, stock := 0 }

/-- The merchandise item of the collision witness after reservation. -/
def itemW : MerchItem :=
  { mid := 1, itemName := "Shirt", required := true, options := [optW] }

/-- Loop result event of the merchandise run of the collision witness. -/
def evW : Event :=
  { eventM with registrationCount := 1, merchandiseItems := [itemW] }

/-- Witness for the ticket-collision contract: user 7, holding no
registration, draws the code FEL-a already held by user 8; both routes
report AlreadyRegistered and hand back the untouched pre-call state. -/
theorem ticket_collision_spec_witness :
    registerNormal stateTickN userA 5 [(1, FormValue.vstr "Bob")] 100 "FEL-a" =
      (stateTickN, Except.error ApiError.alreadyRegistered) ∧
    registerMerch stateTickM userA 5 [(1, 1)] 100 "FEL-a" =
      (stateTickM, Except.error ApiError.alreadyRegistered) :=
  ⟨ticket_collision_spec.1 stateTickN userA 5 [(1, FormValue.vstr "Bob")] 100 "FEL-a"
      (by decide) (by decide) (by decide) (by decide) (by decide) (by decide)
      (by decide) (by decide),
   ticket_collision_spec.2 stateTickM userA 5 [(1, 1)] 100 "FEL-a"
      evW [(1, 1)]
      [{ itemId := 1, itemName := "Shirt", optionId := 1, optionLabel := "M",
         price := 100 }] 100
      (by decide) (by decide) (by decide) (by decide) (by decide) (by decide)
      (by decide) (by rfl) (by decide)⟩

/-- The running total of the merchandise loop is exactly the sum of the
prices of the selections it has processed. -/
theorem merchLoop_total (sels : List (Nat × Nat)) :
    ∀ (items : List MerchItem) (ev : Event) (decs : List (Nat × Nat))
      (proc : List Selection) (total : Int) ev2 decs2 proc2 total2,
      merchLoop sels items ev decs proc total = Except.ok (ev2, decs2, proc2, total2) →
      total2 - (proc2.map (·.price)).sum = total - (proc.map (·.price)).sum := by
  intro items
  induction items with
  | nil =>
    intro ev decs proc total ev2 decs2 proc2 total2 h
    simp only [merchLoop] at h
    injection h with h
    injection h with h1 h
    injection h with h2 h
    injection h with h3 h4
    subst h3; subst h4
    omega
  | cons it rest ih =>
    intro ev decs proc total ev2 decs2 proc2 total2 h
    simp only [merchLoop] at h
    split at h
    · split at h
      · cases h
      · exact ih ev decs proc total ev2 decs2 proc2 total2 h
    · split at h
      · cases h
      · split at h
        · have := ih _ _ _ _ _ _ _ _ h
          simp only [List.map_append, List.sum_append, List.map_cons, List.map_nil,
            List.sum_cons, List.sum_nil] at this
          omega
        · cases h

/-- With non-negative variant prices the running total of the
merchandise loop never decreases. -/
theorem merchLoop_le (sels : List (Nat × Nat)) :
    ∀ (items : List MerchItem), (∀ it ∈ items, ∀ o ∈ it.options, 0 ≤ o.price) →
    ∀ (ev : Event) (decs : List (Nat × Nat)) (proc : List Selection) (total : Int)
      ev2 decs2 proc2 total2,
      merchLoop sels items ev decs proc total = Except.ok (ev2, decs2, proc2, total2) →
      total ≤ total2 := by
  intro items
  induction items with
  | nil =>
    intro hpr ev decs proc total ev2 decs2 proc2 total2 h
    simp only [merchLoop] at h
    injection h with h
    injection h with h1 h
    injection h with h2 h
    injection h with h3 h4
    omega
  | cons it rest ih =>
    intro hpr ev decs proc total ev2 decs2 proc2 total2 h
    have hprh := hpr it (List.mem_cons_self it rest)
    have hprt : ∀ x ∈ rest, ∀ o ∈ x.options, 0 ≤ o.price :=
      fun x hx => hpr x (List.mem_cons_of_mem it hx)
    simp only [merchLoop] at h
    split at h
    · split at h
      · cases h
      · exact ih hprt ev decs proc total ev2 decs2 proc2 total2 h
    · split at h
      · cases h
      · split at h
        · rename_i optId hsel opt hfind hguard
          have hp := hprh opt (List.mem_of_find?_eq_some hfind)
          have := ih hprt _ _ _ _ _ _ _ _ h
          omega
        · cases h

/-- C6: every successful register call (normal or merchandise route)
computes the amount due as the event base fee plus the sum of the prices
of the committed selections, writes the registration with paymentStatus
not_required exactly when that amount is zero and pending otherwise, and
generates the scannable ticket artifact at registration time exactly
when the amount is zero (otherwise the artifact stays empty until
payment approval).  Fees and prices are non-negative per the data
model. -/
theorem register_payment_gating :
    (∀ (s : State) (u : User) (now : Int) (resp : List (Nat × FormValue))
       (rid : Nat) (tid : String) (s2 : State) (r : Registration),
      0 ≤ s.event.registrationFee →
      registerNormal s u now resp rid tid = (s2, Except.ok r) →
      r.amountPaid = s.event.registrationFee + (r.merchandiseSelections.map (·.price)).sum ∧
      r.paymentStatus =
        (if r.amountPaid = 0 then PayStatus.notRequired else PayStatus.pending) ∧
      r.qrCode = (if r.amountPaid = 0 then qrEncode r.ticketId else "")) ∧
    (∀ (s : State) (u : User) (now : Int) (sels : List (Nat × Nat))
       (rid : Nat) (tid : String) (s2 : State) (r : Registration),
      0 ≤ s.event.registrationFee →
      (∀ it ∈ s.event.merchandiseItems, ∀ o ∈ it.options, 0 ≤ o.price) →
      registerMerch s u now sels rid tid = (s2, Except.ok r) →
      r.amountPaid = s.event.registrationFee + (r.merchandiseSelections.map (·.price)).sum ∧
      r.paymentStatus =
        (if r.amountPaid = 0 then PayStatus.notRequired else PayStatus.pending) ∧
      r.qrCode = (if r.amountPaid = 0 then qrEncode r.ticketId else "")) := by
  constructor
  · intro s u now resp rid tid s2 r hfee h
    simp only [registerNormal] at h
    split at h
    · simp at h
    · split at h
      · simp at h
      · split at h
        · simp at h
        · split at h
          · simp at h
          · split at h
            · simp at h
            · split at h
              · split at h
                · simp at h
                · split at h
                  · simp at h
                  · simp only [Prod.mk.injEq, Except.ok.injEq] at h
                    obtain ⟨hs2, hr⟩ := h
                    subst hr
                    refine ⟨by simp, ?_, ?_⟩
                    · by_cases hz : s.event.registrationFee = 0
                      · simp [hz]
                      · have hpos : (0:Int) < s.event.registrationFee := by omega
                        simp [hz, hpos]
                    · by_cases hz : s.event.registrationFee = 0
                      · simp [hz]
                      · have hpos : (0:Int) < s.event.registrationFee := by omega
                        simp [hz, hpos]
              · simp at h
  · intro s u now sels rid tid s2 r hfee hpr h
    simp only [registerMerch] at h
    split at h
    · simp at h
    · split at h
      · simp at h
      · split at h
        · simp at h
        · split at h
          · simp at h
          · split at h
            · simp at h
            · split at h
              · simp at h
              · split at h
                · split at h
                  · simp at h
                  · rename_i hcap ev2 decs2 proc2 total2 hloop
                    split at h
                    · simp at h
                    · simp only [Prod.mk.injEq, Except.ok.injEq] at h
                      obtain ⟨hs2, hr⟩ := h
                      subst hr
                      have hsum := merchLoop_total sels _ _ _ _ _ _ _ _ _ hloop
                      have hle := merchLoop_le sels _ hpr _ _ _ _ _ _ _ _ hloop
                      simp only [List.map_nil, List.sum_nil] at hsum hle
                      refine ⟨by simp; omega, ?_, ?_⟩
                      · by_cases hz : s.event.registrationFee + total2 = 0
                        · simp [hz]
                        · have hpos : (0:Int) < s.event.registrationFee + total2 := by
                            omega
                          simp [hz, hpos]
                      · by_cases hz : s.event.registrationFee + total2 = 0
                        · simp [hz]
                        · have hpos : (0:Int) < s.event.registrationFee + total2 := by
                            omega
                          simp [hz, hpos]
                · simp at h

/-- A complete response set for the one required field of `eventN`. -/
def respB : List (Nat × FormValue) := [(1, FormValue.vstr "Bob")]

/-- The registration created by the successful free normal run of the
payment-gating witness. -/
def regNfree : Registration :=
  { regId := 100, eventId := 1, userId := 7, ticketId := "FEL-a",
    qrCode := qrEncode "FEL-a", paymentStatus := PayStatus.notRequired,
    paymentProof := "", formResponses := respB, merchandiseSelections := [],
    amountPaid := 0, attended := false, attendedAt := none }

/-- Witness for the payment gating: the free normal run is created
not_required with its QR code, the priced merchandise run is created
pending with amount 100 and no QR code. -/
theorem register_payment_gating_witness :
    (regNfree.amountPaid =
        stateN.event.registrationFee + (regNfree.merchandiseSelections.map (·.price)).sum ∧
     regNfree.paymentStatus =
        (if regNfree.amountPaid = 0 then PayStatus.notRequired else PayStatus.pending) ∧
     regNfree.qrCode = (if regNfree.amountPaid = 0 then qrEncode regNfree.ticketId else "")) ∧
    (regM1.amountPaid =
        stateM0.event.registrationFee + (regM1.merchandiseSelections.map (·.price)).sum ∧
     regM1.paymentStatus =
        (if regM1.amountPaid = 0 then PayStatus.notRequired else PayStatus.pending) ∧
     regM1.qrCode = (if regM1.amountPaid = 0 then qrEncode regM1.ticketId else "")) :=
  ⟨register_payment_gating.1 stateN userA 5 respB 100 "FEL-a"
      ((registerNormal stateN userA 5 respB 100 "FEL-a").1) regNfree
      (by decide) (by rfl),
   register_payment_gating.2 stateM0 userA 5 [(1, 1)] 100 "FEL-a" stateM1 regM1
      (by decide) (by decide) (by rfl)⟩

end Felicity
